import Mathlib

/-!
Verification of the `assert_matches_regex!` macro (src/src/lib.rs).

The macro has two arms:

  ($haystack:expr, $re:expr $(,)?) => {{
      let haystack = $haystack;
      let re = regex::Regex::new(&$re).expect("a valid regex");
      if !re.is_match(&haystack) {
          panic!("assertion failed: `{haystack:?}` does not match `{}`", re.as_str());
      }
  }};
  ($haystack:expr, $re:expr, $($arg:tt)+) => {{
      ... same, but the panic format string ends with `: {}` applied to
      format_args!($($arg)*)
  }};

The regex engine (the `regex` crate) is an external collaborator.  The spec
treats it as a black box: compile a pattern into a matcher, and ask whether
any contiguous substring of a haystack satisfies the pattern (search
semantics).  We model it accordingly: a compiled `Regex` carries its source
text (`as_str` returns the original pattern) and a predicate on candidate
substrings; `is_match` is the search-semantics query over all contiguous
substrings.  Compilation is an arbitrary function into `Except`, so theorems
quantify over any engine; a small concrete engine (`toyCompile`, literal
substring matching) instantiates the theorems on concrete inputs.
-/

/-- All suffixes of a list, longest first (the list itself down to `[]`). -/
def tailsOf : List Char → List (List Char)
  | [] => [[]]
  | c :: cs => (c :: cs) :: tailsOf cs

/-- All initial segments of a list, shortest first (`[]` up to the list). -/
def initsOf : List Char → List (List Char)
  | [] => [[]]
  | c :: cs => [] :: (initsOf cs).map (fun l => c :: l)

/-- All contiguous sublists: initial segments of all suffixes. -/
def subLists (l : List Char) : List (List Char) :=
  (tailsOf l).flatMap initsOf

/-- All contiguous substrings of a string. -/
def substringsOf (s : String) : List String :=
  (subLists s.data).map (fun l => String.mk l)

/-- Modelled from the spec: the Debug rendering of the regex engine's error
value (`regex::Error`), kept opaque as a string. -/
structure RegexError where
  debugRendering : String
deriving DecidableEq, Repr

/-- Modelled from the spec: a compiled regex (matcher).  `source` is what
`Regex::as_str` returns; `matchesSub` decides whether the pattern matches a
given candidate contiguous region exactly. -/
structure Regex where
  source : String
  matchesSub : String → Bool

/-- Modelled from the spec: `Regex::is_match` uses search semantics — it
reports a match iff some contiguous substring of the haystack satisfies the
pattern. -/
def Regex.is_match (re : Regex) (haystack : String) : Bool :=
  (substringsOf haystack).any re.matchesSub

/-- Outcome of one macro invocation: return normally, or panic with the
given message. -/
inductive Outcome where
  | success : Outcome
  | panicked : String → Outcome
deriving DecidableEq, Repr

/-- Modelled from the spec: Rust's debug rendering of a single character
inside a quoted string (`char::escape_debug` as used by `{:?}` on strings). -/
def escapeDebugChar (c : Char) : String :=
  if c = '"' then "\\\""
  else if c = '\\' then "\\\\"
  else if c = '\n' then "\\n"
  else if c = '\r' then "\\r"
  else if c = '\t' then "\\t"
  else if c = '\x00' then "\\0"
  else if c.toNat < 32 || c.toNat == 127 then
    "\\u\x7b" ++ String.mk (Nat.toDigits 16 c.toNat) ++ "\x7d"
  else String.singleton c

/-- Modelled from the spec: the host's debug/quoted rendering of a string,
Rust's `{haystack:?}` — surrounding double quotes with inner escapes. -/
def rustDebug (s : String) : String :=
  "\"" ++ String.join (s.data.map escapeDebugChar) ++ "\""

/-- The no-match diagnostic of the macro: the format string
`assertion failed: {haystack:?} does not match {}` with backticks around
both holes, the second hole filled with `re.as_str()`. -/
def noMatchMsg (haystack source : String) : String :=
  "assertion failed: `" ++ rustDebug haystack ++ "` does not match `" ++ source ++ "`"

/-- The panic message of `Result::expect("a valid regex")` on an `Err`:
the expect text, `: `, then the Debug rendering of the error. -/
def expectMsg (e : RegexError) : String :=
  "a valid regex: " ++ e.debugRendering

/-- The two-argument arm of `assert_matches_regex!`, for already-evaluated
haystack and pattern texts, parameterized by the engine's compile function. -/
def assert_matches_regex (new : String → Except RegexError Regex)
    (haystack pat : String) : Outcome :=
  match new pat with
  | Except.error e => Outcome.panicked (expectMsg e)
  | Except.ok re =>
    if !(re.is_match haystack) then
      Outcome.panicked (noMatchMsg haystack re.source)
    else
      Outcome.success

/-- The custom-message arm of `assert_matches_regex!`.  The rendering of
`format_args!($($arg)*)` is a host primitive; it is abstracted as a thunk
producing the rendered message, forced only where the source renders it —
inside the failure branch. -/
def assert_matches_regex_msg (new : String → Except RegexError Regex)
    (haystack pat : String) (arg : Unit → String) : Outcome :=
  match new pat with
  | Except.error e => Outcome.panicked (expectMsg e)
  | Except.ok re =>
    if !(re.is_match haystack) then
      Outcome.panicked (noMatchMsg haystack re.source ++ ": " ++ arg ())
    else
      Outcome.success

/-- The trailing-comma invocation `assert_matches_regex!(H, P,)`.  The macro
matches it with the same arm as the plain two-argument form (`$(,)?`), so its
expansion is the body of that arm. -/
def assert_matches_regex_trailing (new : String → Except RegexError Regex)
    (haystack pat : String) : Outcome :=
  match new pat with
  | Except.error e => Outcome.panicked (expectMsg e)
  | Except.ok re =>
    if !(re.is_match haystack) then
      Outcome.panicked (noMatchMsg haystack re.source)
    else
      Outcome.success

/-- A concrete toy engine used to instantiate theorems: it rejects the one
pattern `[a-z` with a parse error and compiles every other pattern to a
literal matcher (a candidate region satisfies the pattern iff it equals the
pattern text). -/
def toyError : RegexError :=
  { debugRendering := "Syntax(regex parse error: unclosed character class)" }

/-- Compile function of the toy engine. -/
def toyCompile : String → Except RegexError Regex := fun p =>
  if p = "[a-z" then Except.error toyError
  else Except.ok { source := p, matchesSub := fun s => s == p }

/-- The effectful picture of one macro invocation, for claim C9: the
haystack and pattern argument positions are expressions that may have
effects, modelled as state transformers producing a text.  The expansion
binds `let haystack = $haystack;` first, then evaluates `$re` and compiles
it, then runs the match/panic logic. -/
def evalAssert {σ : Type} (hexpr pexpr : σ → σ × String)
    (new : String → Except RegexError Regex) (s : σ) : σ × Outcome :=
  let p1 := hexpr s
  let p2 := pexpr p1.1
  match new p2.2 with
  | Except.error e => (p2.1, Outcome.panicked (expectMsg e))
  | Except.ok re =>
    if !(re.is_match p1.2) then
      (p2.1, Outcome.panicked (noMatchMsg p1.2 re.source))
    else
      (p2.1, Outcome.success)

/-- Two invocations of the two-argument form with identical arguments, in
sequence; the macro holds no state between them. -/
def invokeTwice (new : String → Except RegexError Regex)
    (haystack pat : String) : Outcome × Outcome :=
  (assert_matches_regex new haystack pat, assert_matches_regex new haystack pat)

/-- Two invocations of the custom-message form with identical arguments. -/
def invokeTwiceMsg (new : String → Except RegexError Regex)
    (haystack pat : String) (arg : Unit → String) : Outcome × Outcome :=
  (assert_matches_regex_msg new haystack pat arg,
   assert_matches_regex_msg new haystack pat arg)

/-- The empty list is an initial segment of every list. -/
theorem nil_mem_initsOf (l : List Char) : [] ∈ initsOf l := by
  cases l <;> simp [initsOf]

/-- The empty list is a contiguous sublist of every list. -/
theorem nil_mem_subLists (l : List Char) : [] ∈ subLists l := by
  unfold subLists
  apply List.mem_flatMap.mpr
  refine ⟨l, ?_, nil_mem_initsOf l⟩
  cases l <;> simp [tailsOf]

/-- The empty string is a contiguous substring of every string. -/
theorem empty_mem_substringsOf (s : String) : "" ∈ substringsOf s := by
  unfold substringsOf
  exact List.mem_map.mpr ⟨[], nil_mem_subLists s.data, rfl⟩

/-- Search semantics of the modelled `is_match`, spelled out. -/
theorem is_match_iff (re : Regex) (s : String) :
    re.is_match s = true ↔ ∃ t ∈ substringsOf s, re.matchesSub t = true := by
  unfold Regex.is_match
  exact List.any_eq_true

/-- A string beginning `a valid regex: ` never equals one beginning
with the no-match diagnostic header. -/
theorem expectNeNoMatchAux (x y : String) :
    ("a valid regex: " ++ x) ≠ ("assertion failed: `" ++ y) := by
  intro h
  have h2 : 'a' :: ' ' :: ("valid regex: ".data ++ x.data)
      = 'a' :: 's' :: ("sertion failed: `".data ++ y.data) := congrArg String.data h
  injection h2 with h3 h4
  injection h4 with h5 h6
  exact absurd h5 (by decide)

/-- The invalid-pattern diagnostic never coincides with a no-match
diagnostic, for any haystack and pattern. -/
theorem expectMsg_ne_noMatchMsg (e : RegexError) (hs src : String) :
    expectMsg e ≠ noMatchMsg hs src := by
  unfold expectMsg noMatchMsg
  intro hEq
  simp only [String.append_assoc] at hEq
  exact expectNeNoMatchAux _ _ hEq

/-- Claim C1: whenever the pattern compiles and some contiguous substring of
the haystack satisfies it, both the two-argument form and the
custom-message form return normally (no panic, no other effect). -/
theorem assert_success_on_match (new : String → Except RegexError Regex)
    (h p : String) (re : Regex) (m : Unit → String)
    (hc : new p = Except.ok re)
    (hm : ∃ t ∈ substringsOf h, re.matchesSub t = true) :
    assert_matches_regex new h p = Outcome.success ∧
    assert_matches_regex_msg new h p m = Outcome.success := by
  have hIs : re.is_match h = true := (is_match_iff re h).mpr hm
  unfold assert_matches_regex assert_matches_regex_msg
  rw [hc]
  simp [hIs]

/-- Witness for C1: the toy engine, haystack `abc`, pattern `b`. -/
theorem assert_success_on_match_witness :
    assert_matches_regex toyCompile "abc" "b" = Outcome.success ∧
    assert_matches_regex_msg toyCompile "abc" "b" (fun _ => "msg") = Outcome.success :=
  assert_success_on_match toyCompile "abc" "b"
    { source := "b", matchesSub := fun s => s == "b" } (fun _ => "msg") rfl
    ⟨"b", by decide, by decide⟩

/-- Claim C2, counterexample: the macro's no-match message wraps the
haystack and the pattern in backticks, so it is not exactly
`assertion failed: "abc" does not match \d` as the claim states. -/
theorem noMatch_message_counterexample :
    assert_matches_regex toyCompile "abc" "\\d" =
      Outcome.panicked "assertion failed: `\"abc\"` does not match `\\d`" ∧
    assert_matches_regex toyCompile "abc" "\\d" ≠
      Outcome.panicked "assertion failed: \"abc\" does not match \\d" := by
  decide

/-- Claim C2, amended: on a no-match, the two-argument form panics with
exactly `assertion failed: ` followed by the debug-quoted haystack in
backticks, ` does not match `, and the pattern source in backticks. -/
theorem noMatch_message_exact (new : String → Except RegexError Regex)
    (h p : String) (re : Regex)
    (hc : new p = Except.ok re) (hsrc : re.source = p)
    (hm : re.is_match h = false) :
    assert_matches_regex new h p =
      Outcome.panicked
        ("assertion failed: `" ++ rustDebug h ++ "` does not match `" ++ p ++ "`") := by
  unfold assert_matches_regex
  rw [hc]
  simp [hm, noMatchMsg, hsrc]

/-- Witness for the amended C2: haystack `abc`, pattern `\d` (treated as a
literal by the toy engine; it does not occur in `abc`). -/
theorem noMatch_message_exact_witness :
    assert_matches_regex toyCompile "abc" "\\d" =
      Outcome.panicked
        ("assertion failed: `" ++ rustDebug "abc" ++ "` does not match `" ++ "\\d" ++ "`") :=
  noMatch_message_exact toyCompile "abc" "\\d"
    { source := "\\d", matchesSub := fun s => s == "\\d" } rfl rfl (by decide)

/-- Claim C3, counterexample: the custom-message form also wraps haystack
and pattern in backticks, so its message is not
`assertion failed: "abc" does not match \d: ctx=X` as the claim states. -/
theorem msg_message_counterexample :
    assert_matches_regex_msg toyCompile "abc" "\\d" (fun _ => "ctx=X") =
      Outcome.panicked "assertion failed: `\"abc\"` does not match `\\d`: ctx=X" ∧
    assert_matches_regex_msg toyCompile "abc" "\\d" (fun _ => "ctx=X") ≠
      Outcome.panicked "assertion failed: \"abc\" does not match \\d: ctx=X" := by
  decide

/-- Claim C3, amended: on a no-match, the custom-message form panics with
the same backticked base diagnostic as the two-argument form, followed by
`: ` and the rendered message. -/
theorem msg_message_exact (new : String → Except RegexError Regex)
    (h p : String) (re : Regex) (m : Unit → String)
    (hc : new p = Except.ok re) (hsrc : re.source = p)
    (hm : re.is_match h = false) :
    assert_matches_regex_msg new h p m =
      Outcome.panicked
        ("assertion failed: `" ++ rustDebug h ++ "` does not match `" ++ p ++ "`"
          ++ ": " ++ m ()) := by
  unfold assert_matches_regex_msg
  rw [hc]
  simp [hm, noMatchMsg, hsrc]

/-- Witness for the amended C3: haystack `abc`, pattern `\d`, rendered
message `ctx=X`. -/
theorem msg_message_exact_witness :
    assert_matches_regex_msg toyCompile "abc" "\\d" (fun _ => "ctx=X") =
      Outcome.panicked
        ("assertion failed: `" ++ rustDebug "abc" ++ "` does not match `" ++ "\\d" ++ "`"
          ++ ": " ++ (fun _ : Unit => "ctx=X") ()) :=
  msg_message_exact toyCompile "abc" "\\d"
    { source := "\\d", matchesSub := fun s => s == "\\d" } (fun _ => "ctx=X")
    rfl rfl (by decide)

/-- Claim C4: an invalid pattern makes both forms fail immediately with the
expect diagnostic, the outcome does not depend on the haystack, the message
contains a regex-parse-error indicator whenever the engine's error rendering
does, and the message is distinct from every no-match diagnostic. -/
theorem invalid_pattern_failure (new : String → Except RegexError Regex)
    (h1 h2 p a b hs src : String) (e : RegexError) (m : Unit → String)
    (hc : new p = Except.error e)
    (hind : e.debugRendering = a ++ ("regex parse error" ++ b)) :
    assert_matches_regex new h1 p = Outcome.panicked (expectMsg e) ∧
    assert_matches_regex_msg new h1 p m = Outcome.panicked (expectMsg e) ∧
    assert_matches_regex new h1 p = assert_matches_regex new h2 p ∧
    expectMsg e = ("a valid regex: " ++ a) ++ ("regex parse error" ++ b) ∧
    expectMsg e ≠ noMatchMsg hs src := by
  refine ⟨?_, ?_, ?_, ?_, expectMsg_ne_noMatchMsg e hs src⟩
  · unfold assert_matches_regex
    rw [hc]
  · unfold assert_matches_regex_msg
    rw [hc]
  · unfold assert_matches_regex
    rw [hc]
  · unfold expectMsg
    rw [hind, String.append_assoc]

/-- Witness for C4: the toy engine rejects `[a-z`; two different haystacks
give the same outcome. -/
theorem invalid_pattern_failure_witness :
    assert_matches_regex toyCompile "abc" "[a-z" = Outcome.panicked (expectMsg toyError) ∧
    assert_matches_regex_msg toyCompile "abc" "[a-z" (fun _ => "w") =
      Outcome.panicked (expectMsg toyError) ∧
    assert_matches_regex toyCompile "abc" "[a-z" =
      assert_matches_regex toyCompile "xyz" "[a-z" ∧
    expectMsg toyError =
      ("a valid regex: " ++ "Syntax(")
        ++ ("regex parse error" ++ ": unclosed character class)") ∧
    expectMsg toyError ≠ noMatchMsg "abc" "[a-z" :=
  invalid_pattern_failure toyCompile "abc" "xyz" "[a-z" "Syntax("
    ": unclosed character class)" "abc" "[a-z" toyError (fun _ => "w") rfl (by decide)

/-- Claim C5: the match test has search semantics — `is_match` reports a
match iff some contiguous substring satisfies the pattern — and with the
empty pattern (which matches the empty region) the assertion succeeds on
every haystack. -/
theorem search_semantics_empty_pattern (new : String → Except RegexError Regex)
    (h s : String) (r re0 : Regex)
    (hre : new "" = Except.ok re0) (h0 : re0.matchesSub "" = true) :
    (r.is_match s = true ↔ ∃ t ∈ substringsOf s, r.matchesSub t = true) ∧
    assert_matches_regex new h "" = Outcome.success := by
  refine ⟨is_match_iff r s, ?_⟩
  have hIs : re0.is_match h = true :=
    (is_match_iff re0 h).mpr ⟨"", empty_mem_substringsOf h, h0⟩
  unfold assert_matches_regex
  rw [hre]
  simp [hIs]

/-- Witness for C5: toy engine, empty pattern, haystack `xyz`. -/
theorem search_semantics_empty_pattern_witness :
    (Regex.is_match { source := "z", matchesSub := fun s => s == "z" } "xyz" = true ↔
      ∃ t ∈ substringsOf "xyz",
        Regex.matchesSub { source := "z", matchesSub := fun s => s == "z" } t = true) ∧
    assert_matches_regex toyCompile "xyz" "" = Outcome.success :=
  search_semantics_empty_pattern toyCompile "xyz" "xyz"
    { source := "z", matchesSub := fun s => s == "z" }
    { source := "", matchesSub := fun s => s == "" } rfl (by decide)

/-- Claim C6: the trailing-comma invocation expands through the same macro
arm as the plain two-argument form, so both give the same outcome on every
haystack and pattern — same success, same no-match message, same
invalid-pattern message. -/
theorem trailing_comma_equiv (new : String → Except RegexError Regex)
    (h p : String) :
    assert_matches_regex_trailing new h p = assert_matches_regex new h p := rfl

/-- Claim C7: the assertion is deterministic and stateless — two
invocations with identical haystack, pattern, and message arguments give
identical outcomes; nothing is carried between the calls. -/
theorem deterministic_stateless (new : String → Except RegexError Regex)
    (h p : String) (m : Unit → String) :
    (invokeTwice new h p).1 = (invokeTwice new h p).2 ∧
    (invokeTwiceMsg new h p m).1 = (invokeTwiceMsg new h p m).2 :=
  ⟨rfl, rfl⟩

/-- Claim C8: failure-message construction is lazy — when a match is found,
the custom-message form succeeds for every message thunk, and the outcome is
entirely independent of the message thunk (it is never forced on the
success path). -/
theorem lazy_message_on_success (new : String → Except RegexError Regex)
    (h p : String) (re : Regex) (m1 m2 : Unit → String)
    (hc : new p = Except.ok re) (hm : re.is_match h = true) :
    assert_matches_regex_msg new h p m1 = Outcome.success ∧
    assert_matches_regex_msg new h p m1 = assert_matches_regex_msg new h p m2 := by
  have hAll : ∀ m : Unit → String,
      assert_matches_regex_msg new h p m = Outcome.success := by
    intro m
    unfold assert_matches_regex_msg
    rw [hc]
    simp [hm]
  exact ⟨hAll m1, (hAll m1).trans (hAll m2).symm⟩

/-- Witness for C8: toy engine, haystack `abc`, pattern `b`, two distinct
message thunks. -/
theorem lazy_message_on_success_witness :
    assert_matches_regex_msg toyCompile "abc" "b" (fun _ => "m1") = Outcome.success ∧
    assert_matches_regex_msg toyCompile "abc" "b" (fun _ => "m1") =
      assert_matches_regex_msg toyCompile "abc" "b" (fun _ => "m2") :=
  lazy_message_on_success toyCompile "abc" "b"
    { source := "b", matchesSub := fun s => s == "b" }
    (fun _ => "m1") (fun _ => "m2") rfl (by decide)

/-- Claim C9: in the effectful picture, the haystack expression is evaluated
exactly once, before the pattern is evaluated and compiled; its single value
feeds both the match test and the diagnostic, and its state effect is
present in every outcome, the invalid-pattern one included. -/
theorem haystack_once_before_compile {σ : Type} (hexpr pexpr : σ → σ × String)
    (new : String → Except RegexError Regex) (s : σ) :
    evalAssert hexpr pexpr new s =
      ((pexpr (hexpr s).1).1,
        assert_matches_regex new (hexpr s).2 (pexpr (hexpr s).1).2) ∧
    evalAssert hexpr pexpr new s = evalAssert (fun _ => hexpr s) pexpr new s := by
  refine ⟨?_, rfl⟩
  unfold evalAssert assert_matches_regex
  cases hnew : new (pexpr (hexpr s).1).2 with
  | error e => simp [hnew]
  | ok re => cases hm : re.is_match (hexpr s).2 <;> simp [hnew, hm]

/-- Claim C10: on an invalid pattern the failure payload comes from
`Result::expect("a valid regex")` — the fixed text `a valid regex`, then
`: `, then the Debug rendering of the engine's error value — and it never
equals the engine's error rendering alone. -/
theorem expect_diagnostic_shape (new : String → Except RegexError Regex)
    (h p : String) (e : RegexError) (m : Unit → String)
    (hc : new p = Except.error e) :
    assert_matches_regex new h p =
      Outcome.panicked ("a valid regex: " ++ e.debugRendering) ∧
    assert_matches_regex_msg new h p m =
      Outcome.panicked ("a valid regex: " ++ e.debugRendering) ∧
    "a valid regex: " ++ e.debugRendering ≠ e.debugRendering := by
  refine ⟨?_, ?_, ?_⟩
  · unfold assert_matches_regex
    rw [hc]
    rfl
  · unfold assert_matches_regex_msg
    rw [hc]
    rfl
  · intro heq
    have hLen := congrArg String.length heq
    rw [String.length_append] at hLen
    have h15 : "a valid regex: ".length = 15 := rfl
    rw [h15] at hLen
    omega

/-- Witness for C10: the toy engine on the pattern `[a-z`. -/
theorem expect_diagnostic_shape_witness :
    assert_matches_regex toyCompile "abc" "[a-z" =
      Outcome.panicked ("a valid regex: " ++ toyError.debugRendering) ∧
    assert_matches_regex_msg toyCompile "abc" "[a-z" (fun _ => "w2") =
      Outcome.panicked ("a valid regex: " ++ toyError.debugRendering) ∧
    "a valid regex: " ++ toyError.debugRendering ≠ toyError.debugRendering :=
  expect_diagnostic_shape toyCompile "abc" "[a-z" toyError (fun _ => "w2") rfl
